import Mathlib

/-!
Shallow embedding of `src/components/chat.rs` (yew chat client).

The file models the session state store: the `Chat` component state, the
`Msg` events it processes, and the `Chat::update` reducer (lines 86-147 of
the source).  JSON (de)serialization is performed by the external `serde`
library in the source; an inbound raw frame string is therefore modelled by
its decode outcome (`RawFrame`), and the nested `MessageData` payload of a
`message` frame by its own decode outcome (`Decoded`).  A Rust panic coming
from `.unwrap()` on a failed decode is modelled by the reducer returning
`none`.
-/

/-- Outcome of `serde_json::from_str` on the nested payload string: either a
successfully decoded value or a decode failure (`DecodeError::Malformed`). -/
inductive Decoded (α : Type) where
  | ok (a : α) : Decoded α
  | malformed : Decoded α
deriving DecidableEq, Repr

/-- Mirrors `struct MessageData` (chat.rs lines 15-20): sender, body and an
optional association list of (emoji, usernames) reaction entries, exactly as
`serde` produces it from `reactions: Option<Vec<(String, Vec<String>)>>`. -/
structure MessageData where
  «from» : String
  message : String
  reactions : Option (List (String × List String))
deriving DecidableEq, Repr

/-- Mirrors `enum MsgTypes` (chat.rs lines 22-28). -/
inductive MsgTypes where
  | users
  | register
  | message
deriving DecidableEq, Repr

/-- Mirrors `struct WebSocketMessage` (chat.rs lines 30-36). -/
structure WebSocketMessage where
  message_type : MsgTypes
  data_array : Option (List String)
  data : Option String
deriving DecidableEq, Repr

/-- Mirrors `struct UserProfile` (chat.rs lines 38-42). -/
structure UserProfile where
  name : String
  avatar : String
deriving DecidableEq, Repr

/-- The state component of `struct Chat` (chat.rs lines 44-51).  The
`NodeRef`, websocket handle and event-bus bridge are runtime handles, not
data; the DOM input element's value is passed explicitly to the
`SubmitMessage` event below. -/
structure Chat where
  users : List UserProfile
  messages : List MessageData
  current_user : String
deriving DecidableEq, Repr

/-- A raw inbound frame string, by its `serde_json::from_str` outcome
(chat.rs line 89): either not a well-formed wire frame at all, or a wire
frame `msg` together with the decode outcome `nested` of its `data` string
interpreted as a `MessageData` (consulted only in the `Message` arm,
chat.rs line 103). -/
inductive RawFrame where
  | malformed : RawFrame
  | wire (msg : WebSocketMessage) (nested : Decoded MessageData) : RawFrame
deriving DecidableEq, Repr

/-- Mirrors `enum Msg` (chat.rs lines 9-13).  `HandleMsg` carries the raw
inbound frame; `SubmitMessage` carries the chat input element's value at
dispatch time (`none` when `chat_input.cast::<HtmlInputElement>()` fails,
chat.rs line 111). -/
inductive Msg where
  | HandleMsg (data : RawFrame)
  | SubmitMessage (input : Option String)
  | React (index : Nat) (emoji : String)
deriving DecidableEq, Repr

/-- Everything one call of `Chat::update` produces: the new state, the wire
frames handed to `wss.tx` (as structures; serialization is injective on
them), whether `input.set_value("")` ran, and the `bool` returned to yew. -/
structure StepOut where
  state : Chat
  sent : List WebSocketMessage
  inputCleared : Bool
  render : Bool
deriving DecidableEq, Repr

/-- The avatar URL `format!` of chat.rs line 96: a pure function of the
username. -/
def avatarUrl (name : String) : String :=
  "https://avatars.dicebear.com/api/adventurer-neutral/" ++ name ++ ".svg"

/-- The toggle on one emoji's username list (chat.rs lines 130-134):
`retain(|u| u != &user)` when present, `push(user)` when absent. -/
def toggleUsers (users : List String) (user : String) : List String :=
  if user ∈ users then users.filter (fun u => u ≠ user) else users ++ [user]

/-- The effect of the `React` arm on a reaction list (chat.rs lines
129-137): `iter_mut().find` locates the first entry with this emoji and
toggles it in place; if no entry matches, `(emoji, vec![user])` is pushed at
the end. -/
def reactList : List (String × List String) → String → String → List (String × List String)
  | [], emoji, user => [(emoji, [user])]
  | (e, us) :: rest, emoji, user =>
    if e = emoji then (e, toggleUsers us user) :: rest
    else (e, us) :: reactList rest emoji user

/-- The effect of the `React` arm on one message (chat.rs lines 128-140):
toggle inside the existing reaction list, or lazily create
`Some(vec![(emoji, vec![user])])` when `reactions` is `None`. -/
def reactToggle (m : MessageData) (user emoji : String) : MessageData :=
  match m.reactions with
  | some rs => { m with reactions := some (reactList rs emoji user) }
  | none => { m with reactions := some [(emoji, [user])] }

/-- First-match lookup of an emoji's username list in a reaction list, the
access pattern `reactions.iter().find(|(e, _)| e == emoji)` used by both the
`React` arm and the view's counter (chat.rs lines 129 and 190). -/
def lookupReaction : List (String × List String) → String → Option (List String)
  | [], _ => none
  | (e, us) :: rest, emoji => if e = emoji then some us else lookupReaction rest emoji

/-- Rust's `str::trim` (used at chat.rs line 118): the input with leading
and trailing whitespace removed, written as an executable function on the
character list. -/
def strTrim (s : String) : String :=
  ⟨(((s.data.dropWhile Char.isWhitespace).reverse.dropWhile Char.isWhitespace)).reverse⟩

/-- The outbound `Register` frame built in `Chat::create` (chat.rs lines
66-70). -/
def registerFrame (username : String) : WebSocketMessage :=
  { message_type := .register, data_array := none, data := some username }

/-- The state part of `Chat::create` (chat.rs lines 76-83): empty roster,
empty message log, `current_user` fixed to the context username.  As a side
effect `Chat::create` also best-effort sends `registerFrame username`. -/
def createChat (username : String) : Chat :=
  { users := [], messages := [], current_user := username }

/-- Shallow embedding of `Chat::update` (chat.rs lines 86-147).  Returns
`none` exactly when the Rust code panics: `from_str(&data).unwrap()` on a
malformed wire frame (line 89), `msg.data.unwrap()` on a `message` frame
with absent `data` (line 103), or `from_str(..).unwrap()` on a malformed
nested payload (line 103). -/
def Chat.update (self : Chat) (msg : Msg) : Option StepOut :=
  match msg with
  | .HandleMsg data =>
    match data with
    | .malformed => none
    | .wire m nested =>
      match m.message_type with
      | .users =>
        let usernames := m.data_array.getD []
        some ⟨{ self with
                users := usernames.map (fun name => { name := name, avatar := avatarUrl name }) },
              [], false, true⟩
      | .message =>
        match m.data with
        | none => none
        | some _ =>
          match nested with
          | .malformed => none
          | .ok message_data =>
            some ⟨{ self with messages := self.messages ++ [message_data] }, [], false, true⟩
      | .register => some ⟨self, [], false, false⟩
  | .SubmitMessage input =>
    match input with
    | some text =>
      let message : WebSocketMessage :=
        { message_type := .message, data_array := none, data := some text }
      some ⟨self, if (strTrim text).isEmpty then [] else [message], true, false⟩
    | none => some ⟨self, [], false, false⟩
  | .React index emoji =>
    match self.messages[index]? with
    | some m =>
      some ⟨{ self with messages := self.messages.set index (reactToggle m self.current_user emoji) },
            [], false, true⟩
    | none => some ⟨self, [], false, false⟩

/-- Membership of `user` in the reaction set the UI displays for message
`i` and emoji `emoji` (first matching entry, as in the source's `find`). -/
def Chat.userReacted (self : Chat) (i : Nat) (emoji user : String) : Bool :=
  match self.messages[i]? with
  | none => false
  | some m => decide (user ∈ (lookupReaction (m.reactions.getD []) emoji).getD [])

/-- States reachable from `Chat::create` by any sequence of processed
events (inbound frames, submits, reaction toggles). -/
inductive Reachable : Chat → Prop where
  | init (username : String) : Reachable (createChat username)
  | step (st : Chat) (msg : Msg) (r : StepOut) :
      Reachable st → st.update msg = some r → Reachable r.state

/-- The at-most-once invariant on one message: every reaction entry's
username list is duplicate-free. -/
def ReactionsNodup (m : MessageData) : Prop :=
  ∀ p ∈ m.reactions.getD [], List.Nodup p.2

instance (m : MessageData) : Decidable (ReactionsNodup m) := by
  unfold ReactionsNodup; infer_instance

/-- A message frame payload whose reaction lists are duplicate-free; used to
separate toggle-introduced duplicates (impossible) from server-introduced
ones (possible). -/
def MsgNodupOk : Msg → Prop
  | .HandleMsg (.wire _ (.ok md)) => ReactionsNodup md
  | _ => True

/-- States reachable from `Chat::create` when every successfully decoded
inbound `MessageData` payload carries duplicate-free reaction lists. -/
inductive ReachableGood : Chat → Prop where
  | init (username : String) : ReachableGood (createChat username)
  | step (st : Chat) (msg : Msg) (r : StepOut) :
      ReachableGood st → MsgNodupOk msg → st.update msg = some r → ReachableGood r.state

lemma mem_toggleUsers_twice (us : List String) (u v : String) :
    v ∈ toggleUsers (toggleUsers us u) u ↔ v ∈ us := by
  by_cases hv : v = u
  · subst hv
    by_cases h : v ∈ us
    · simp [toggleUsers, h, List.mem_filter, List.mem_append]
    · simp [toggleUsers, h, List.mem_filter, List.mem_append]
  · by_cases h : u ∈ us
    · simp [toggleUsers, h, List.mem_filter, List.mem_append, hv]
    · simp [toggleUsers, h, List.mem_filter, List.mem_append, hv]

lemma toggleUsers_nodup (us : List String) (u : String) (h : List.Nodup us) :
    List.Nodup (toggleUsers us u) := by
  by_cases hm : u ∈ us
  · simpa [toggleUsers, hm] using h.filter _
  · rw [toggleUsers, if_neg hm]
    refine List.nodup_append.mpr ⟨h, List.nodup_singleton u, ?_⟩
    intro a ha hb
    rw [List.mem_singleton] at hb
    exact hm (hb ▸ ha)

lemma lookupReaction_reactList (rs : List (String × List String)) (emoji user : String) :
    lookupReaction (reactList rs emoji user) emoji
      = some (toggleUsers ((lookupReaction rs emoji).getD []) user) := by
  induction rs with
  | nil => simp [reactList, lookupReaction, toggleUsers]
  | cons p rest ih =>
    obtain ⟨e, us⟩ := p
    by_cases h : e = emoji
    · subst h
      simp [reactList, lookupReaction]
    · simp [reactList, lookupReaction, h, ih]

lemma lookupReaction_reactToggle (m : MessageData) (user emoji : String) :
    lookupReaction ((reactToggle m user emoji).reactions.getD []) emoji
      = some (toggleUsers ((lookupReaction (m.reactions.getD []) emoji).getD []) user) := by
  cases hm : m.reactions with
  | none => simp [reactToggle, hm, lookupReaction, toggleUsers]
  | some rs => simp [reactToggle, hm, lookupReaction_reactList]

lemma mem_lookup_reactToggle_twice (m : MessageData) (user emoji v : String) :
    v ∈ (lookupReaction
        ((reactToggle (reactToggle m user emoji) user emoji).reactions.getD []) emoji).getD []
      ↔ v ∈ (lookupReaction (m.reactions.getD []) emoji).getD [] := by
  rw [lookupReaction_reactToggle, lookupReaction_reactToggle]
  simp only [Option.getD_some]
  exact mem_toggleUsers_twice _ _ _

/-- Claim C1 (code behavior at the failing inputs): an inbound raw frame
that is not a well-formed wire frame, a `message` frame whose `data` field
is absent, or a `message` frame whose nested payload is malformed, all make
`Chat::update` panic (`.unwrap()` on a failed decode, chat.rs lines 89 and
103), modelled as `none` — the frame is not ignored with the state left
unchanged, contradicting the claim. -/
theorem malformed_frame_panics :
    (∀ st : Chat, st.update (.HandleMsg .malformed) = none)
    ∧ (∀ (st : Chat) (da : Option (List String)) (nested : Decoded MessageData),
        st.update (.HandleMsg (.wire ⟨.message, da, none⟩ nested)) = none)
    ∧ (∀ (st : Chat) (da : Option (List String)) (s : String),
        st.update (.HandleMsg (.wire ⟨.message, da, some s⟩ .malformed)) = none) :=
  ⟨fun _ => rfl, fun _ _ _ => rfl, fun _ _ _ => rfl⟩

/-- Claim C4: submitting the non-empty text "hello" emits exactly one
outbound frame, structurally `{messageType := message, data := "hello"}`,
and leaves the session state (in particular `messages`) unchanged; a
`ChatMessage` is appended only when an inbound `Message` frame with a
well-formed payload is applied. -/
theorem submit_hello_emits_one_frame :
    (∀ st : Chat, st.update (.SubmitMessage (some "hello")) =
      some ⟨st, [{ message_type := .message, data_array := none, data := some "hello" }],
            true, false⟩)
    ∧ (∀ (st : Chat) (da : Option (List String)) (s : String) (md : MessageData),
        st.update (.HandleMsg (.wire ⟨.message, da, some s⟩ (.ok md))) =
          some ⟨{ st with messages := st.messages ++ [md] }, [], false, true⟩) :=
  ⟨fun _ => rfl, fun _ _ _ _ => rfl⟩

/-- Claim C5: submitting a string that is empty after trimming emits no
outbound frame, leaves the state unchanged, and still clears the input
field (`input.set_value("")` runs on every submit with an input element,
chat.rs line 121). -/
theorem submit_blank_emits_nothing (st : Chat) (text : String)
    (h : strTrim text = "") :
    st.update (.SubmitMessage (some text)) = some ⟨st, [], true, false⟩ := by
  have he : (strTrim text).isEmpty = true := by rw [h]; rfl
  simp [Chat.update, he]

/-- Claim C5 witness: a concrete whitespace-only submit. -/
theorem submit_blank_emits_nothing_witness :
    (strTrim "  " = "") ∧
    (createChat "alice").update (.SubmitMessage (some "  ")) =
      some ⟨createChat "alice", [], true, false⟩ :=
  ⟨by decide, submit_blank_emits_nothing (createChat "alice") "  " (by decide)⟩

/-- Claim C6: an inbound `users` frame carrying a roster replaces `users`
wholesale with profiles for exactly those usernames in order, each avatar
the pure function `avatarUrl` of the username. -/
theorem users_frame_replaces_roster (st : Chat) (usernames : List String)
    (d : Option String) (nested : Decoded MessageData) :
    st.update (.HandleMsg (.wire ⟨.users, some usernames, d⟩ nested)) =
      some ⟨{ st with
              users := usernames.map (fun name => { name := name, avatar := avatarUrl name }) },
            [], false, true⟩ :=
  rfl

/-- Claim C7: a reaction toggle whose index is out of range leaves the
state unchanged and raises no error (the `get_mut` miss arm, chat.rs lines
142-144). -/
theorem react_out_of_range_noop (st : Chat) (index : Nat) (emoji : String)
    (h : st.messages.length ≤ index) :
    st.update (.React index emoji) = some ⟨st, [], false, false⟩ := by
  have hn : st.messages[index]? = none := List.getElem?_eq_none h
  simp [Chat.update, hn]

/-- Claim C7 witness: toggling message 99 in a fresh session. -/
theorem react_out_of_range_noop_witness :
    ((createChat "alice").messages.length ≤ 99) ∧
    (createChat "alice").update (.React 99 "👍") =
      some ⟨createChat "alice", [], false, false⟩ :=
  ⟨by decide, react_out_of_range_noop (createChat "alice") 99 "👍" (by decide)⟩

/-- Claim C8: an inbound frame with the unhandled `register` tag is a
no-op on every state field and yields notification `false` (the wildcard
arm, chat.rs line 107), while the handled `users` and well-formed `message`
frames yield `true`. -/
theorem register_frame_noop_handled_frames_render :
    (∀ (st : Chat) (da : Option (List String)) (d : Option String)
        (nested : Decoded MessageData),
        st.update (.HandleMsg (.wire ⟨.register, da, d⟩ nested)) =
          some ⟨st, [], false, false⟩)
    ∧ (∀ (st : Chat) (da : Option (List String)) (d : Option String)
        (nested : Decoded MessageData),
        ∃ r : StepOut,
          st.update (.HandleMsg (.wire ⟨.users, da, d⟩ nested)) = some r ∧ r.render = true)
    ∧ (∀ (st : Chat) (da : Option (List String)) (s : String) (md : MessageData),
        ∃ r : StepOut,
          st.update (.HandleMsg (.wire ⟨.message, da, some s⟩ (.ok md))) = some r ∧
            r.render = true) :=
  ⟨fun _ _ _ _ => rfl,
   fun _ _ _ _ => ⟨_, rfl, rfl⟩,
   fun _ _ _ _ => ⟨_, rfl, rfl⟩⟩

/-- Claim C9: an inbound `users` frame with `dataArray` absent replaces the
roster with the empty sequence (`unwrap_or_default`, chat.rs line 92) and
reports the state as changed. -/
theorem users_frame_missing_dataArray_clears_roster (st : Chat)
    (d : Option String) (nested : Decoded MessageData) :
    st.update (.HandleMsg (.wire ⟨.users, none, d⟩ nested)) =
      some ⟨{ st with users := [] }, [], false, true⟩ :=
  rfl

/-- Claim C2: from any state, toggling the same (index, emoji) twice with
the same current user returns that emoji's reaction membership for that
message to its original membership: every username's membership in that
emoji's reaction set is what it was before the two toggles. -/
theorem react_twice_restores_membership (st : Chat) (i : Nat) (emoji : String)
    (h : i < st.messages.length) :
    ∃ r1 r2 : StepOut,
      st.update (.React i emoji) = some r1 ∧
      r1.state.update (.React i emoji) = some r2 ∧
      ∀ user : String,
        r2.state.userReacted i emoji user = st.userReacted i emoji user := by
  obtain ⟨m, hm⟩ : ∃ m, st.messages[i]? = some m := ⟨_, List.getElem?_eq_getElem h⟩
  refine ⟨⟨{ st with messages := st.messages.set i (reactToggle m st.current_user emoji) },
           [], false, true⟩,
          ⟨{ st with messages := st.messages.set i (reactToggle (reactToggle m st.current_user emoji) st.current_user emoji) },
           [], false, true⟩, ?_, ?_, ?_⟩
  · simp [Chat.update, hm]
  · have h1 : (st.messages.set i (reactToggle m st.current_user emoji))[i]? =
        some (reactToggle m st.current_user emoji) :=
      List.getElem?_set_self (by simpa using h)
    simp [Chat.update, h1, List.set_set]
  · have h2 : (st.messages.set i
        (reactToggle (reactToggle m st.current_user emoji) st.current_user emoji))[i]? =
          some (reactToggle (reactToggle m st.current_user emoji) st.current_user emoji) :=
      List.getElem?_set_self (by simpa using h)
    intro user
    simp only [Chat.userReacted, h2, hm]
    rw [decide_eq_decide]
    exact mem_lookup_reactToggle_twice m st.current_user emoji user

/-- Claim C2 witness: a double toggle on a concrete one-message state. -/
theorem react_twice_restores_membership_witness :
    (0 < (⟨[], [⟨"bob", "hi", none⟩], "alice"⟩ : Chat).messages.length) ∧
    (∃ r1 r2 : StepOut,
      (⟨[], [⟨"bob", "hi", none⟩], "alice"⟩ : Chat).update (.React 0 "👍") = some r1 ∧
      r1.state.update (.React 0 "👍") = some r2 ∧
      ∀ user : String,
        r2.state.userReacted 0 "👍" user
          = (⟨[], [⟨"bob", "hi", none⟩], "alice"⟩ : Chat).userReacted 0 "👍" user) :=
  ⟨by decide,
   react_twice_restores_membership ⟨[], [⟨"bob", "hi", none⟩], "alice"⟩ 0 "👍" (by decide)⟩

/-- Claim C10: when a toggle removes the last remaining username from an
emoji's reaction entry, the entry itself stays in the message's reaction
list with an empty username list (`retain` empties the vector, chat.rs line
131, and nothing removes the pair). -/
theorem react_remove_last_keeps_empty_entry (st : Chat) (i : Nat) (emoji : String)
    (m : MessageData) (hm : st.messages[i]? = some m)
    (hu : lookupReaction (m.reactions.getD []) emoji = some [st.current_user]) :
    ∃ r : StepOut,
      st.update (.React i emoji) = some r ∧
      r.state.messages[i]? = some (reactToggle m st.current_user emoji) ∧
      lookupReaction ((reactToggle m st.current_user emoji).reactions.getD []) emoji
        = some [] := by
  have hlen : i < st.messages.length := by
    rcases List.getElem?_eq_some_iff.mp hm with ⟨hl, _⟩
    exact hl
  refine ⟨⟨{ st with messages := st.messages.set i (reactToggle m st.current_user emoji) },
           [], false, true⟩, ?_, ?_, ?_⟩
  · simp [Chat.update, hm]
  · exact List.getElem?_set_self (by simpa using hlen)
  · rw [lookupReaction_reactToggle, hu]
    simp [toggleUsers]

/-- Claim C10 witness: un-toggling the only reactor on a concrete state. -/
theorem react_remove_last_keeps_empty_entry_witness :
    ((⟨[], [⟨"bob", "hi", some [("👍", ["alice"])]⟩], "alice"⟩ : Chat).messages[0]? =
        some ⟨"bob", "hi", some [("👍", ["alice"])]⟩) ∧
    (lookupReaction ((⟨"bob", "hi", some [("👍", ["alice"])]⟩ : MessageData).reactions.getD [])
        "👍" = some [(⟨[], [⟨"bob", "hi", some [("👍", ["alice"])]⟩], "alice"⟩ : Chat).current_user]) ∧
    (∃ r : StepOut,
      (⟨[], [⟨"bob", "hi", some [("👍", ["alice"])]⟩], "alice"⟩ : Chat).update (.React 0 "👍")
        = some r ∧
      r.state.messages[0]? = some (reactToggle ⟨"bob", "hi", some [("👍", ["alice"])]⟩
        (⟨[], [⟨"bob", "hi", some [("👍", ["alice"])]⟩], "alice"⟩ : Chat).current_user "👍") ∧
      lookupReaction ((reactToggle ⟨"bob", "hi", some [("👍", ["alice"])]⟩
          (⟨[], [⟨"bob", "hi", some [("👍", ["alice"])]⟩], "alice"⟩ : Chat).current_user
          "👍").reactions.getD []) "👍" = some []) :=
  ⟨by decide, by decide,
   react_remove_last_keeps_empty_entry ⟨[], [⟨"bob", "hi", some [("👍", ["alice"])]⟩], "alice"⟩
     0 "👍" ⟨"bob", "hi", some [("👍", ["alice"])]⟩ (by decide) (by decide)⟩

lemma reactList_nodup (rs : List (String × List String)) (emoji user : String)
    (h : ∀ p ∈ rs, List.Nodup p.2) :
    ∀ p ∈ reactList rs emoji user, List.Nodup p.2 := by
  induction rs with
  | nil =>
    intro p hp
    simp [reactList] at hp
    subst hp
    simp
  | cons q rest ih =>
    obtain ⟨e, us⟩ := q
    intro p hp
    by_cases he : e = emoji
    · simp [reactList, he] at hp
      rcases hp with hp | hp
      · subst hp
        exact toggleUsers_nodup us user (h (e, us) (by simp))
      · exact h p (List.mem_cons_of_mem _ hp)
    · simp only [reactList, if_neg he, List.mem_cons] at hp
      rcases hp with hp | hp
      · subst hp
        exact h (e, us) (by simp)
      · exact ih (fun q hq => h q (List.mem_cons_of_mem _ hq)) p hp

lemma reactToggle_nodup (m : MessageData) (user emoji : String)
    (h : ReactionsNodup m) : ReactionsNodup (reactToggle m user emoji) := by
  cases hm : m.reactions with
  | none =>
    intro p hp
    simp [reactToggle, hm] at hp
    subst hp
    simp
  | some rs =>
    intro p hp
    simp only [reactToggle, hm, Option.getD_some] at hp
    exact reactList_nodup rs emoji user
      (fun q hq => h q (by rw [hm]; exact hq)) p hp

lemma update_preserves_nodup (st : Chat) (msg : Msg) (r : StepOut)
    (hup : st.update msg = some r) (hok : MsgNodupOk msg)
    (ih : ∀ m ∈ st.messages, ReactionsNodup m) :
    ∀ m ∈ r.state.messages, ReactionsNodup m := by
  cases msg with
  | HandleMsg raw =>
    cases raw with
    | malformed => simp [Chat.update] at hup
    | wire w nested =>
      obtain ⟨mt, da, d⟩ := w
      cases mt with
      | users =>
        simp [Chat.update] at hup
        subst hup
        exact ih
      | register =>
        simp [Chat.update] at hup
        subst hup
        exact ih
      | message =>
        cases d with
        | none => simp [Chat.update] at hup
        | some s =>
          cases nested with
          | malformed => simp [Chat.update] at hup
          | ok md =>
            simp [Chat.update] at hup
            subst hup
            intro m hm
            rcases List.mem_append.mp hm with h | h
            · exact ih m h
            · rw [List.mem_singleton] at h
              subst h
              exact hok
  | SubmitMessage input =>
    cases input with
    | none =>
      simp [Chat.update] at hup
      subst hup
      exact ih
    | some text =>
      simp [Chat.update] at hup
      rw [show st = r.state from congrArg StepOut.state hup]  at ih
      exact ih
  | React i emoji =>
    cases hm : st.messages[i]? with
    | none =>
      simp [Chat.update, hm] at hup
      subst hup
      exact ih
    | some m =>
      simp [Chat.update, hm] at hup
      subst hup
      intro m2 hm2
      rcases List.mem_or_eq_of_mem_set hm2 with h | h
      · exact ih m2 h
      · subst h
        exact reactToggle_nodup m st.current_user emoji (ih m (List.getElem?_mem hm))

/-- Claim C3 counterexample: the claim as stated is false — a state in
which "alice" occurs twice in one emoji's reaction set is reachable from a
fresh session by a single inbound `message` frame, because the nested
payload (here the raw string
"\x7b\"from\":\"bob\",\"message\":\"hi\",\"reactions\":[[\"U\",[\"alice\",\"alice\"]]]\x7d"
with U the thumbs-up emoji) is stored verbatim, duplicates included. -/
theorem inbound_duplicate_payload_reachable :
    ∃ st : Chat, Reachable st ∧ ¬ (∀ m ∈ st.messages, ReactionsNodup m) := by
  refine ⟨⟨[], [⟨"bob", "hi", some [("👍", ["alice", "alice"])]⟩], "alice"⟩, ?_, ?_⟩
  · have h := Reachable.step (createChat "alice")
      (.HandleMsg (.wire
        ⟨.message, none,
         some "\x7b\"from\":\"bob\",\"message\":\"hi\",\"reactions\":[[\"👍\",[\"alice\",\"alice\"]]]\x7d"⟩
        (.ok ⟨"bob", "hi", some [("👍", ["alice", "alice"])]⟩)))
      ⟨⟨[], [⟨"bob", "hi", some [("👍", ["alice", "alice"])]⟩], "alice"⟩, [], false, true⟩
      (Reachable.init "alice") (by decide)
    exact h
  · intro hall
    exact absurd (hall ⟨"bob", "hi", some [("👍", ["alice", "alice"])]⟩ (by simp)
      ("👍", ["alice", "alice"]) (by simp)) (by decide)

/-- Claim C3 amended: the at-most-once invariant holds in every state
reachable by inbound frames and local actions, provided every successfully
decoded inbound `message` payload itself carries duplicate-free reaction
lists; in particular a reaction toggle never introduces a duplicate entry.
(The unamended claim fails only because an inbound payload may already
contain duplicates, which the store copies verbatim.) -/
theorem reachable_nodup_of_clean_payloads (st : Chat) (h : ReachableGood st) :
    ∀ m ∈ st.messages, ReactionsNodup m := by
  induction h with
  | init username =>
    intro m hm
    simp [createChat] at hm
  | step st0 msg r hr hok hup ih =>
    exact update_preserves_nodup st0 msg r hup hok ih

/-- Claim C3 witness: the amended invariant evaluated on a concrete
two-step reachable state (deliver a clean message, then toggle a
reaction). -/
theorem reachable_nodup_of_clean_payloads_witness :
    ReachableGood ⟨[], [⟨"bob", "hi", some [("👍", ["alice"])]⟩], "alice"⟩ ∧
    (∀ m ∈ (⟨[], [⟨"bob", "hi", some [("👍", ["alice"])]⟩], "alice"⟩ : Chat).messages,
      ReactionsNodup m) := by
  have h1 : ReachableGood (⟨[], [⟨"bob", "hi", none⟩], "alice"⟩ : Chat) := by
    have h := ReachableGood.step (createChat "alice")
      (.HandleMsg (.wire
        ⟨.message, none, some "\x7b\"from\":\"bob\",\"message\":\"hi\",\"reactions\":null\x7d"⟩
        (.ok ⟨"bob", "hi", none⟩)))
      ⟨⟨[], [⟨"bob", "hi", none⟩], "alice"⟩, [], false, true⟩
      (ReachableGood.init "alice") (show ReactionsNodup ⟨"bob", "hi", none⟩ by decide)
      (by decide)
    exact h
  have h2 : ReachableGood (⟨[], [⟨"bob", "hi", some [("👍", ["alice"])]⟩], "alice"⟩ : Chat) := by
    have h := ReachableGood.step ⟨[], [⟨"bob", "hi", none⟩], "alice"⟩
      (.React 0 "👍")
      ⟨⟨[], [⟨"bob", "hi", some [("👍", ["alice"])]⟩], "alice"⟩, [], false, true⟩
      h1 trivial (by decide)
    exact h
  exact ⟨h2, reachable_nodup_of_clean_payloads _ h2⟩
